import Mathlib

/-!
Shallow embedding of the WEDM-AI-simulation repository core logic.

Sources embedded:
* `src/utils/aiModels.ts` — the four predictor factories `trainSVM`, `trainANN`,
  `trainELM`, `trainGA`, the statistics helpers and the synthetic data generator.
* `src/components/ParameterPanel.tsx` — the material/grade selection logic.
* the `AIModelPanel` component (unnamed source file) — the training
  orchestrator: `handleTrainModel`, the 50ms progress interval and the
  train button guarded by `disabled = isTraining`.

Conventions of the embedding:
* JavaScript numbers are modelled as rationals (`ℚ`).
* `Math.random()` is modelled by an explicit stream `r : ℕ → ℚ` of draws,
  consumed at the indices at which the source performs the draws (the
  synthetic-data path consumes 700 draws before the per-model draws, hence
  `drawBase`).
* The transcendental primitives `Math.tanh`, `Math.exp` and `Math.sqrt`
  are not rational-valued; they are abstracted into a `MathPrims` record of
  function parameters so that every definition stays computable.  No claim
  below depends on the values of these primitives.
* `params.x || d` (JavaScript falsy defaulting) is modelled by `orDefault`:
  an absent field or the value `0` falls back to the default.
* `Date.now()` wall-clock elapsed time is passed in as the `elapsed`
  argument: it is opaque to all claims.
* `loadEDMDataset` lives in `src/utils/datasetLoader.ts`, which is not part
  of the sources; the loaded dataset is passed in as the `realData`
  argument (modelled from the spec: the external Dataset Provider returns a
  non-empty list of numeric `EDMTrainingData` records).
-/

namespace WEDM

/-- A training record, mirroring the `EDMTrainingData` interface of
`src/utils/datasetLoader.ts` (modelled from the spec §2/§3: ten numeric
fields, six inputs and four outcomes). -/
structure EDMTrainingData where
  voltage : ℚ
  current : ℚ
  pulseOnTime : ℚ
  pulseOffTime : ℚ
  wireSpeed : ℚ
  dielectricFlow : ℚ
  materialRemovalRate : ℚ
  surfaceRoughness : ℚ
  dimensionalAccuracy : ℚ
  processingTime : ℚ
deriving DecidableEq

/-- The prediction input object handed to `predict(params)`.  The source
types it `any`; the fields below are exactly the ones the four predictors
read.  `none` models an absent property. -/
structure PredictParams where
  laserPower : Option ℚ
  speed : Option ℚ
  thickness : Option ℚ
  linearEnergy : Option ℚ
  surfaceRoughness : Option ℚ
  deviation : Option ℚ
deriving DecidableEq

/-- The record returned by every `predict` closure. -/
structure PredictionOutput where
  materialRemovalRate : ℚ
  surfaceRoughness : ℚ
  dimensionalAccuracy : ℚ
  processingTime : ℚ
deriving DecidableEq

/-- `ModelResult` of `src/utils/aiModels.ts`. -/
structure ModelResult where
  accuracy : ℚ
  trainingTime : ℕ
  samples : ℕ
  rmse : ℚ
  predict : PredictParams → PredictionOutput

/-- The transcendental `Math` primitives used by the source, abstracted as
function parameters (they are not rational-valued; no claim depends on
their values). -/
structure MathPrims where
  tanh : ℚ → ℚ
  exp : ℚ → ℚ
  sqrt : ℚ → ℚ

/-- JavaScript `x || d` defaulting on an optional numeric property: an
absent field, or the falsy value `0`, yields the default. -/
def orDefault (x : Option ℚ) (d : ℚ) : ℚ :=
  match x with
  | none => d
  | some v => if v = 0 then d else v

/-- `arr.map((x, i) => f(i, x))` starting at index `i`. -/
def mapWithIndexFrom (f : ℕ → α → β) : ℕ → List α → List β
  | _, [] => []
  | i, a :: as => f i a :: mapWithIndexFrom f (i + 1) as

/-- JavaScript `arr.map((x, i) => f(i, x))`. -/
def mapWithIndex (f : ℕ → α → β) (l : List α) : List β :=
  mapWithIndexFrom f 0 l

/-- `values.reduce((s, v) => s + v, 0) / values.length`. -/
def averageOf (l : List ℚ) : ℚ := l.sum / l.length

/-- `calculateVariance` of `src/utils/aiModels.ts` (lines 256-260). -/
def calculateVariance (values : List ℚ) : ℚ :=
  let mean := values.sum / values.length
  let squaredDiffs := values.map (fun val => (val - mean) ^ 2)
  squaredDiffs.sum / values.length

/-- Result of `calculateDataStatistics`. -/
structure DataStatistics where
  correlationFactor : ℚ
  varianceFactor : ℚ
  sampleSize : ℕ

/-- `calculateDataStatistics` of `src/utils/aiModels.ts` (lines 244-254). -/
def calculateDataStatistics (M : MathPrims) (data : List EDMTrainingData) : DataStatistics :=
  let voltageVariance := calculateVariance (data.map (·.voltage))
  let currentVariance := calculateVariance (data.map (·.current))
  let mrrVariance := calculateVariance (data.map (·.materialRemovalRate))
  { correlationFactor := M.sqrt (voltageVariance * currentVariance) / 1000
    varianceFactor := M.sqrt mrrVariance / 10
    sampleSize := data.length }

/-- One synthetic record of `generateSyntheticData` (lines 265-285); record
`i` consumes the seven draws `7*i .. 7*i+6` in source order. -/
def syntheticRecord (r : ℕ → ℚ) (i : ℕ) : EDMTrainingData :=
  let voltage := 25/10 + r (7*i) * (35/10)
  let current := 1500 + r (7*i + 1) * 3100
  let pulseOnTime := 2 + r (7*i + 2) * 8
  let pulseOffTime := 33 + r (7*i + 3) * 207
  let wireSpeed := 1500 + r (7*i + 4) * 3100
  let dielectricFlow := 7/10 + r (7*i + 5) * (8/10)
  { voltage := voltage
    current := current
    pulseOnTime := pulseOnTime
    pulseOffTime := pulseOffTime
    wireSpeed := wireSpeed
    dielectricFlow := dielectricFlow
    materialRemovalRate := voltage * current * pulseOnTime / 1000
    surfaceRoughness := dielectricFlow
    dimensionalAccuracy := 70/1000 + r (7*i + 6) * (155/1000)
    processingTime := max 1 (60 - current / 100 - voltage * 2) }

/-- `generateSyntheticData` of `src/utils/aiModels.ts` (lines 263-287):
exactly 100 records, consuming draws `0 .. 699`. -/
def generateSyntheticData (r : ℕ → ℚ) : List EDMTrainingData :=
  (List.range 100).map (syntheticRecord r)

/-- Index of the first draw a train function performs after obtaining its
dataset: the synthetic path (`useRealData = false`) consumes 700 draws
first. -/
def drawBase (useRealData : Bool) : ℕ := if useRealData then 0 else 700

/-- The dataset a train function works on:
`useRealData ? await loadEDMDataset() : generateSyntheticData()`. -/
def trainData (r : ℕ → ℚ) (useRealData : Bool) (realData : List EDMTrainingData) :
    List EDMTrainingData :=
  if useRealData then realData else generateSyntheticData r

/-- The `weights` object of `trainSVM` (lines 32-37). -/
structure SVMWeights where
  voltage : ℚ
  current : ℚ
  pulseOn : ℚ
  pulseOff : ℚ
deriving DecidableEq

/-- Weight derivation of `trainSVM` (lines 28-37). -/
def svmWeights (data : List EDMTrainingData) : SVMWeights :=
  let avgVoltage := averageOf (data.map (·.voltage))
  let avgCurrent := averageOf (data.map (·.current))
  let avgMRR := averageOf (data.map (·.materialRemovalRate))
  { voltage := avgMRR / avgVoltage * (8/10)
    current := avgMRR / avgCurrent * (12/10)
    pulseOn := -(8/1000)
    pulseOff := 3/1000 }

/-- The `predict` closure of `trainSVM` (lines 39-55). -/
def svmPredict (weights : SVMWeights) (params : PredictParams) : PredictionOutput :=
  { materialRemovalRate := max 0 (
      weights.voltage * orDefault params.laserPower 0 +
      weights.current * orDefault params.speed 0 / 100 -
      weights.pulseOn * orDefault params.thickness 0 +
      weights.pulseOff * orDefault params.linearEnergy 0 / 10)
    surfaceRoughness := max (1/10) (orDefault params.surfaceRoughness 1)
    dimensionalAccuracy := max 1 (orDefault params.deviation (1/10) * 1000)
    processingTime := max 1 (
      60 - orDefault params.speed 1000 / 100 - orDefault params.laserPower 1 * 2) }

/-- `trainSVM` of `src/utils/aiModels.ts` (lines 19-64).  `accuracy` and
`rmse` consume the two draws after the dataset draws. -/
def trainSVM (r : ℕ → ℚ) (useRealData : Bool) (realData : List EDMTrainingData)
    (elapsed : ℕ) : ModelResult :=
  let data := trainData r useRealData realData
  let base := drawBase useRealData
  { accuracy := 87/100 + r base * (8/100)
    trainingTime := elapsed
    samples := data.length
    rmse := 12/100 + r (base + 1) * (8/100)
    predict := svmPredict (svmWeights data) }

/-- The four normalized inputs shared verbatim by the `predict` closures of
`trainANN` (lines 88-93), `trainELM` (lines 144-149) and `trainGA`
(lines 211-216). -/
def normalizedInputs (params : PredictParams) : List ℚ :=
  [orDefault params.laserPower 3 / 6,
   orDefault params.speed 3000 / 5000,
   orDefault params.thickness 4 / 10,
   orDefault params.linearEnergy 60 / 250]

/-- The hidden weights of `trainANN`: eight random draws in `[-1, 1)`
(line 76), each later scaled in place by the correlation factor
(lines 83-85); the in-place scaling loop is collapsed into the map. -/
def annHiddenWeights (r : ℕ → ℚ) (base : ℕ) (correlationFactor : ℚ) : List ℚ :=
  (List.range 8).map (fun i => (r (base + i) * 2 - 1) * correlationFactor)

/-- The output weights of `trainANN`: four random draws in `[-1, 1)`
(line 77), drawn after the hidden weights. -/
def annOutputWeights (r : ℕ → ℚ) (base : ℕ) : List ℚ :=
  (List.range 4).map (fun j => r (base + 8 + j) * 2 - 1)

/-- The `predict` closure of `trainANN` (lines 87-114).  Out-of-range index
reads (which do not occur: all indices are below 8 resp. 4) default to 0. -/
def annPredict (M : MathPrims) (hiddenWeights outputWeights : List ℚ)
    (params : PredictParams) : PredictionOutput :=
  let inputs := normalizedInputs params
  let hidden := mapWithIndex
    (fun i input => M.tanh (input * hiddenWeights.getD i 0 + hiddenWeights.getD (i + 4) 0))
    inputs
  { materialRemovalRate := max 0 (
      (hidden.getD 0 0 * outputWeights.getD 0 0 +
       hidden.getD 1 0 * outputWeights.getD 1 0) * 8)
    surfaceRoughness := max (1/10) (orDefault params.surfaceRoughness 1)
    dimensionalAccuracy := max 1 (orDefault params.deviation (1/10) * 1000)
    processingTime := max 1 (
      (hidden.getD 2 0 + hidden.getD 3 0) * outputWeights.getD 2 0 * 40 + 20) }

/-- `trainANN` of `src/utils/aiModels.ts` (lines 67-123). -/
def trainANN (M : MathPrims) (r : ℕ → ℚ) (useRealData : Bool)
    (realData : List EDMTrainingData) (elapsed : ℕ) : ModelResult :=
  let data := trainData r useRealData realData
  let base := drawBase useRealData
  let stats := calculateDataStatistics M data
  { accuracy := 91/100 + r (base + 12) * (6/100)
    trainingTime := elapsed
    samples := data.length
    rmse := 9/100 + r (base + 13) * (6/100)
    predict := annPredict M (annHiddenWeights r base stats.correlationFactor)
      (annOutputWeights r base) }

/-- The input weights of `trainELM`: sixteen random draws in `[-2, 2)`
(line 134), each later scaled in place by the variance factor
(lines 139-141); the in-place scaling loop is collapsed into the map. -/
def elmInputWeights (r : ℕ → ℚ) (base : ℕ) (varianceFactor : ℚ) : List ℚ :=
  (List.range 16).map (fun i => (r (base + i) * 4 - 2) * varianceFactor)

/-- The biases of `trainELM`: four random draws in `[-1, 1)` (line 135),
drawn after the input weights. -/
def elmBiases (r : ℕ → ℚ) (base : ℕ) : List ℚ :=
  (List.range 4).map (fun j => r (base + 16 + j) * 2 - 1)

/-- The `predict` closure of `trainELM` (lines 143-169).  The indexed
`reduce` accumulations are written as an indexed map followed by `sum`. -/
def elmPredict (M : MathPrims) (inputWeights biases : List ℚ)
    (params : PredictParams) : PredictionOutput :=
  let inputs := normalizedInputs params
  let hiddenOutputs := mapWithIndex
    (fun i input => 1 / (1 + M.exp (-(input * inputWeights.getD i 0 + biases.getD (i % 4) 0))))
    inputs
  { materialRemovalRate := max 0 (
      (mapWithIndex (fun i h => h * inputWeights.getD (i % 4) 0) hiddenOutputs).sum * 6)
    surfaceRoughness := max (1/10) (orDefault params.surfaceRoughness 1)
    dimensionalAccuracy := max 1 (orDefault params.deviation (1/10) * 1000)
    processingTime := max 1 (
      (mapWithIndex (fun i h => h * inputWeights.getD ((i + 12) % 16) 0) hiddenOutputs).sum
        * 50 + 15) }

/-- `trainELM` of `src/utils/aiModels.ts` (lines 126-178). -/
def trainELM (M : MathPrims) (r : ℕ → ℚ) (useRealData : Bool)
    (realData : List EDMTrainingData) (elapsed : ℕ) : ModelResult :=
  let data := trainData r useRealData realData
  let base := drawBase useRealData
  let stats := calculateDataStatistics M data
  { accuracy := 94/100 + r (base + 20) * (4/100)
    trainingTime := elapsed
    samples := data.length
    rmse := 6/100 + r (base + 21) * (4/100)
    predict := elmPredict M (elmInputWeights r base stats.varianceFactor)
      (elmBiases r base) }

/-- One member of the genetic-algorithm population (lines 189-192). -/
structure Individual where
  weights : List ℚ
  fitness : ℚ
deriving DecidableEq

instance : Inhabited Individual := ⟨⟨[], 0⟩⟩

/-- The comparator `(a, b) => b.fitness - a.fitness` of line 196: sort
descending by fitness. -/
def fitnessDesc (a b : Individual) : Prop := b.fitness ≤ a.fitness

instance : DecidableRel fitnessDesc :=
  fun a b => inferInstanceAs (Decidable (b.fitness ≤ a.fitness))

instance : IsTotal Individual fitnessDesc :=
  ⟨fun a b => le_total b.fitness a.fitness⟩

instance : IsTrans Individual fitnessDesc :=
  ⟨fun _ _ _ hab hbc => le_trans hbc hab⟩

/-- The initial GA population (lines 189-192): twenty individuals, each
consuming eight weight draws in `[-2, 2)` followed by one fitness draw. -/
def initialPopulation (r : ℕ → ℚ) (base : ℕ) : List Individual :=
  (List.range 20).map (fun i =>
    { weights := (List.range 8).map (fun j => r (base + 9*i + j) * 4 - 2)
      fitness := r (base + 9*i + 8) })

/-- One GA generation (lines 195-206): sort descending by fitness, keep the
top ten, and `splice` the bottom ten away in favour of jittered offspring.
Offspring `k` consumes the draws `genBase + 9*k .. genBase + 9*k + 8`
(eight weight jitters, then the fitness factor). -/
def gaStep (r : ℕ → ℚ) (genBase : ℕ) (population : List Individual) : List Individual :=
  let sorted := List.insertionSort fitnessDesc population
  let survivors := sorted.take 10
  let offspring := mapWithIndex (fun k parent =>
    { weights := mapWithIndex (fun j w => w + (r (genBase + 9*k + j) - 1/2) * (1/10))
        parent.weights
      fitness := parent.fitness * (95/100 + r (genBase + 9*k + 8) * (1/10)) }) survivors
  survivors ++ offspring

/-- The GA population after `g` generations of evolution; generation `g`
consumes the 90 draws starting at `base + 180 + 90*g`. -/
def gaEvolve (r : ℕ → ℚ) (base : ℕ) : ℕ → List Individual
  | 0 => initialPopulation r base
  | g + 1 => gaStep r (base + 180 + 90*g) (gaEvolve r base g)

/-- `bestIndividual = population[0]` after the ten generations (line 208). -/
def bestIndividual (r : ℕ → ℚ) (base : ℕ) : Individual :=
  (gaEvolve r base 10).headI

/-- The `predict` closure of `trainGA` (lines 210-232). -/
def gaPredict (best : Individual) (params : PredictParams) : PredictionOutput :=
  let features := normalizedInputs params
  { materialRemovalRate := max 0 (
      (mapWithIndex (fun i f => f * best.weights.getD i 0) features).sum * 7)
    surfaceRoughness := max (1/10) (orDefault params.surfaceRoughness 1)
    dimensionalAccuracy := max 1 (orDefault params.deviation (1/10) * 1000)
    processingTime := max 1 (
      (mapWithIndex (fun i f => f * best.weights.getD (i % 8) 0) features).sum * 45 + 25) }

/-- `trainGA` of `src/utils/aiModels.ts` (lines 181-241).  The population
consumes 180 draws, evolution 900 more, then `accuracy` and `rmse`. -/
def trainGA (r : ℕ → ℚ) (useRealData : Bool) (realData : List EDMTrainingData)
    (elapsed : ℕ) : ModelResult :=
  let data := trainData r useRealData realData
  let base := drawBase useRealData
  { accuracy := 89/100 + r (base + 1080) * (7/100)
    trainingTime := elapsed
    samples := data.length
    rmse := 10/100 + r (base + 1081) * (7/100)
    predict := gaPredict (bestIndividual r base) }

/-!
## Training orchestrator (`AIModelPanel`, unnamed source file)

State of the panel: `trainingProgress`, `isTraining`, the number of live
`setInterval` timers (0 or 1 in any reachable UI state; tracked as a count
so that a double start is observable), and the list of completed runs (each
completed run calls `onTrainModel(selectedModel, …)` in the parent, which
stores the result keyed by the model id — modelled from the spec §4.4, the
parent component is not among the sources).
-/

/-- Orchestrator state of the `AIModelPanel` component. -/
structure OrchState where
  progress : ℕ
  isTraining : Bool
  activeIntervals : ℕ
  completedRuns : List String
deriving DecidableEq

/-- `handleTrainModel` (lines 21-37 of the panel): unconditionally set
`isTraining`, reset progress to 0 and start a new 50ms interval.  The
function body itself contains no re-entrancy guard. -/
def handleTrainModel (s : OrchState) : OrchState :=
  { s with isTraining := true, progress := 0, activeIntervals := s.activeIntervals + 1 }

/-- One 50ms interval tick (lines 26-36): with no live interval nothing
happens; at `progress >= 100` the interval clears itself, `isTraining` is
cleared, the training callback fires once and progress stays at 100;
otherwise progress advances by exactly 2. -/
def tick (model : String) (s : OrchState) : OrchState :=
  if s.activeIntervals = 0 then s
  else if 100 ≤ s.progress then
    { s with progress := 100
             isTraining := false
             activeIntervals := s.activeIntervals - 1
             completedRuns := model :: s.completedRuns }
  else { s with progress := s.progress + 2 }

/-- `n` consecutive interval ticks. -/
def tickN (model : String) : ℕ → OrchState → OrchState
  | 0, s => s
  | n + 1, s => tick model (tickN model n s)

/-- The train button (lines 85-91 of the panel): the click handler is
`handleTrainModel`, but the button carries `disabled = isTraining`, so a
click while training does nothing. -/
def trainButtonClick (s : OrchState) : OrchState :=
  if s.isTraining then s else handleTrainModel s

/-!
## Parameter panel (`src/components/ParameterPanel.tsx`)
-/

/-- The `EDMParameters` interface (lines 4-16). -/
structure EDMParameters where
  material : String
  grade : String
  thickness : ℚ
  laserPower : ℚ
  speed : ℚ
  gasAndPressure : String
  surfaceRoughness : ℚ
  deviation : ℚ
  kerfTaper : ℚ
  hazDepth : ℚ
  linearEnergy : ℚ
deriving DecidableEq

/-- `materialOptions` (line 24). -/
def materialOptions : List String :=
  ["Mild Steel", "Stainless Steel", "Aluminium", "Titanium"]

/-- `gradeOptions` (lines 25-30): the per-material grade lists; a key
outside the four materials has no entry (the source would crash indexing
`undefined`, and the select only ever offers the four materials). -/
def gradeOptions (material : String) : List String :=
  if material = "Mild Steel" then ["S355JR"]
  else if material = "Stainless Steel" then ["AISI 304"]
  else if material = "Aluminium" then ["Al-6061"]
  else if material = "Titanium" then ["Ti6Al4V"]
  else []

/-- The material select `onChange` handler (lines 57-70): set `material` to
the new value and `grade` to `gradeOptions[newMaterial][0]`. -/
def materialSelectChange (p : EDMParameters) (newMaterial : String) : EDMParameters :=
  let newGrade := (gradeOptions newMaterial).headI
  { p with material := newMaterial, grade := newGrade }

/-!
## Closure-call traces (for the purity claim)

A `predict` closure is modelled as a body reading a captured environment;
`closureRun` threads the environment through a sequence of calls exactly as
the JavaScript engine threads the closure's captured bindings, so that
"no call mutates the captured coefficients" is expressible as the
environment being returned unchanged by every call.
-/

/-- Run a closure body over a list of calls, threading the captured
environment from call to call. -/
def closureRun {σ : Type} (body : σ → PredictParams → PredictionOutput × σ) :
    σ → List PredictParams → List PredictionOutput × σ
  | s, [] => ([], s)
  | s, p :: ps =>
    let call := body s p
    let rest := closureRun body call.2 ps
    (call.1 :: rest.1, rest.2)

/-- One call of the SVM `predict` closure: reads the captured `weights`,
never writes them (the closure body, lines 39-55, contains no assignment). -/
def svmCall (w : SVMWeights) (p : PredictParams) : PredictionOutput × SVMWeights :=
  (svmPredict w p, w)

/-- One call of the ANN `predict` closure over its captured weight lists. -/
def annCall (M : MathPrims) (env : List ℚ × List ℚ) (p : PredictParams) :
    PredictionOutput × (List ℚ × List ℚ) :=
  (annPredict M env.1 env.2 p, env)

/-- One call of the ELM `predict` closure over its captured weights and
biases. -/
def elmCall (M : MathPrims) (env : List ℚ × List ℚ) (p : PredictParams) :
    PredictionOutput × (List ℚ × List ℚ) :=
  (elmPredict M env.1 env.2 p, env)

/-- One call of the GA `predict` closure over its captured best
individual. -/
def gaCall (best : Individual) (p : PredictParams) : PredictionOutput × Individual :=
  (gaPredict best p, best)

/-!
## Concrete inputs used by witnesses and counterexamples
-/

/-- The empty params object `{}`. -/
def emptyParams : PredictParams := ⟨none, none, none, none, none, none⟩

/-- A constant draw stream. -/
def rHalf : ℕ → ℚ := fun _ => 1/2

/-- A one-element dataset with every field equal to 1. -/
def unitRecord : EDMTrainingData := ⟨1, 1, 1, 1, 1, 1, 1, 1, 1, 1⟩

/-- Identity instantiation of the abstract `Math` primitives, used only to
instantiate witnesses. -/
def idPrims : MathPrims := ⟨fun x => x, fun x => x, fun x => x⟩

/-- The draw stream of the GA counterexample: every draw is `1/2` except
draw 998 — the fitness factor of the first offspring of the final
generation — which is `9/10` (factor `1.04`). -/
def gaCounterStream : ℕ → ℚ := fun n => if n = 998 then 9/10 else 1/2

/-!
## Helper lemmas
-/

lemma orDefault_some_zero (t : ℚ) : orDefault (some t) 0 = t := by
  by_cases ht : t = 0 <;> simp [orDefault, ht]

lemma take_append_self {α : Type _} : ∀ (l₁ l₂ : List α), (l₁ ++ l₂).take l₁.length = l₁
  | [], _ => by simp
  | a :: t, l₂ => by
    simp only [List.cons_append, List.length_cons, List.take_succ_cons, take_append_self t l₂]

lemma length_mapWithIndexFrom (f : ℕ → α → β) : ∀ (i : ℕ) (l : List α),
    (mapWithIndexFrom f i l).length = l.length
  | _, [] => rfl
  | i, _ :: as => by
    simp only [mapWithIndexFrom, List.length_cons, length_mapWithIndexFrom f (i + 1) as]

lemma length_mapWithIndex (f : ℕ → α → β) (l : List α) :
    (mapWithIndex f l).length = l.length :=
  length_mapWithIndexFrom f 0 l

lemma length_gaStep (r : ℕ → ℚ) (genBase : ℕ) (pop : List Individual)
    (h : pop.length = 20) : (gaStep r genBase pop).length = 20 := by
  simp [gaStep, length_mapWithIndex, List.length_insertionSort, h]

lemma length_gaEvolve (r : ℕ → ℚ) (base : ℕ) : ∀ g, (gaEvolve r base g).length = 20
  | 0 => by simp [gaEvolve, initialPopulation]
  | g + 1 => length_gaStep r _ _ (length_gaEvolve r base g)

/-- After one GA generation, the head of the resulting population dominates
the first ten members (the sorted survivors) but not necessarily the
offspring appended behind them. -/
lemma gaStep_take_head (r : ℕ → ℚ) (genBase : ℕ) (pop : List Individual)
    (h : pop.length = 20) :
    ∀ x ∈ (gaStep r genBase pop).take 10, x.fitness ≤ (gaStep r genBase pop).headI.fitness := by
  simp only [gaStep]
  set sorted := List.insertionSort fitnessDesc pop with hsorted
  have hslen : sorted.length = 20 := by
    rw [hsorted, List.length_insertionSort]; exact h
  have hsort : List.Sorted fitnessDesc sorted := List.sorted_insertionSort fitnessDesc pop
  obtain ⟨a, t, hat⟩ : ∃ a t, sorted = a :: t := by
    cases hs : sorted with
    | nil => rw [hs] at hslen; simp at hslen
    | cons a t => exact ⟨a, t, rfl⟩
  rw [hat] at hsort ⊢
  have htake : (a :: t).take 10 = a :: t.take 9 := List.take_succ_cons
  rw [htake]
  have hlen9 : (t.take 9).length = 9 := by
    rw [List.length_take]
    rw [hat] at hslen
    simp only [List.length_cons] at hslen
    omega
  intro x hx
  have hten : (10 : ℕ) = ((a :: t.take 9) : List Individual).length := by
    simp [hlen9]
  rw [hten, take_append_self] at hx
  have hhead : ((a :: t.take 9) ++
      mapWithIndex (fun k parent =>
        ({ weights := mapWithIndex (fun j w => w + (r (genBase + 9*k + j) - 1/2) * (1/10))
             parent.weights
           fitness := parent.fitness * (95/100 + r (genBase + 9*k + 8) * (1/10)) } : Individual))
        (a :: t.take 9)).headI = a := by
    simp [List.headI]
  rw [hhead]
  rcases List.mem_cons.mp hx with hxa | hxt
  · rw [hxa]
  · exact List.rel_of_sorted_cons hsort x (List.take_subset 9 t hxt)

/-!
## Claim theorems
-/

/-- The four per-output floors every `predict` closure applies. -/
def outputFloors (o : PredictionOutput) : Prop :=
  0 ≤ o.materialRemovalRate ∧ 1/10 ≤ o.surfaceRoughness ∧
  1 ≤ o.dimensionalAccuracy ∧ 1 ≤ o.processingTime

/-- C1: for every model kind (SVM, ANN, ELM, GA), every draw stream, every
dataset and every input params object — the empty object with all fields
defaulted included — the `predict` function of the returned `ModelResult`
yields `materialRemovalRate ≥ 0`, `surfaceRoughness ≥ 0.1`,
`dimensionalAccuracy ≥ 1` and `processingTime ≥ 1`. -/
theorem claim_C1_predict_floors (M : MathPrims) (r : ℕ → ℚ) (u : Bool)
    (rd : List EDMTrainingData) (e : ℕ) (p : PredictParams) :
    outputFloors ((trainSVM r u rd e).predict p) ∧
    outputFloors ((trainANN M r u rd e).predict p) ∧
    outputFloors ((trainELM M r u rd e).predict p) ∧
    outputFloors ((trainGA r u rd e).predict p) := by
  refine ⟨⟨?_, ?_, ?_, ?_⟩, ⟨?_, ?_, ?_, ?_⟩, ⟨?_, ?_, ?_, ?_⟩, ⟨?_, ?_, ?_, ?_⟩⟩ <;>
    exact le_max_left _ _

/-- The surfaceRoughness output as the spec words it: `max(0.1, input
surfaceRoughness, defaulting to 1.0)` (definition follows the spec's words,
for the refinement comparison of C10). -/
def specSurfaceRoughness (p : PredictParams) : ℚ :=
  max (1/10) (orDefault p.surfaceRoughness 1)

/-- The dimensionalAccuracy output as the spec words it: `max(1, (input
deviation, defaulting to 0.1) × 1000)` (definition follows the spec's
words, for the refinement comparison of C10). -/
def specDimensionalAccuracy (p : PredictParams) : ℚ :=
  max 1 (orDefault p.deviation (1/10) * 1000)

/-- C10: the four model kinds' `predict` closures compute identical
`surfaceRoughness` and `dimensionalAccuracy` outputs for every input,
independent of the dataset and of any random coefficients, and these equal
the spec formulas `max(0.1, sr or 1.0)` and `max(1, (dev or 0.1)·1000)`. -/
theorem claim_C10_shared_outputs (M : MathPrims) (r : ℕ → ℚ) (u : Bool)
    (rd : List EDMTrainingData) (e : ℕ) (p : PredictParams) :
    (((trainSVM r u rd e).predict p).surfaceRoughness = specSurfaceRoughness p ∧
     ((trainANN M r u rd e).predict p).surfaceRoughness = specSurfaceRoughness p ∧
     ((trainELM M r u rd e).predict p).surfaceRoughness = specSurfaceRoughness p ∧
     ((trainGA r u rd e).predict p).surfaceRoughness = specSurfaceRoughness p) ∧
    (((trainSVM r u rd e).predict p).dimensionalAccuracy = specDimensionalAccuracy p ∧
     ((trainANN M r u rd e).predict p).dimensionalAccuracy = specDimensionalAccuracy p ∧
     ((trainELM M r u rd e).predict p).dimensionalAccuracy = specDimensionalAccuracy p ∧
     ((trainGA r u rd e).predict p).dimensionalAccuracy = specDimensionalAccuracy p) :=
  ⟨⟨rfl, rfl, rfl, rfl⟩, ⟨rfl, rfl, rfl, rfl⟩⟩

/-- C4: updating the material field (the material select's onChange) sets
`material` to the new value and deterministically resets `grade` to that
material's first grade option, regardless of the prior state; in
particular "Titanium" yields "Ti6Al4V" and "Aluminium" yields "Al-6061". -/
theorem claim_C4_material_resets_grade (p : EDMParameters) (m : String) :
    (materialSelectChange p m).material = m ∧
    (materialSelectChange p m).grade = (gradeOptions m).headI ∧
    (materialSelectChange p "Titanium").grade = "Ti6Al4V" ∧
    (materialSelectChange p "Aluminium").grade = "Al-6061" ∧
    (materialSelectChange p "Mild Steel").grade = "S355JR" ∧
    (materialSelectChange p "Stainless Steel").grade = "AISI 304" := by
  refine ⟨rfl, rfl, ?_, ?_, ?_, ?_⟩ <;> rfl

/-- C5 counterexample: calling `handleTrainModel` itself while a run is in
flight (progress 50, one live interval) is not a no-op — it resets the
progress counter to 0 and starts a second interval.  The function body has
no re-entrancy guard. -/
theorem claim_C5_counterexample :
    handleTrainModel ⟨50, true, 1, []⟩ ≠ (⟨50, true, 1, []⟩ : OrchState) ∧
    (handleTrainModel ⟨50, true, 1, []⟩).progress = 0 ∧
    (handleTrainModel ⟨50, true, 1, []⟩).activeIntervals = 2 := by
  refine ⟨?_, rfl, rfl⟩
  intro hcontra
  exact absurd (congrArg OrchState.progress hcontra) (by decide)

/-- C5 amended: the re-entrancy protection lives in the train button, not
in `handleTrainModel`: the button carries `disabled = isTraining`, so a
button click while `isTraining` leaves the state — progress, flag, interval
count and completed runs — entirely unchanged, while a click when idle
invokes `handleTrainModel`. -/
theorem claim_C5_button_noop (p i : ℕ) (c : List String) :
    trainButtonClick ⟨p, true, i, c⟩ = (⟨p, true, i, c⟩ : OrchState) ∧
    trainButtonClick ⟨p, false, i, c⟩ = handleTrainModel ⟨p, false, i, c⟩ :=
  ⟨rfl, rfl⟩

/-- C8: starting from any idle state (no live interval), a run begun by
`handleTrainModel` starts at progress 0 and after `n` ticks is in the state
`⟨2n, true, 1, c⟩` for `n ≤ 50` — progress advances by exactly 2 per tick —
and `⟨100, false, 0, m :: c⟩` for every `n ≥ 51`: the callback has fired
exactly once, on the tick at which progress had reached 100, the interval
is cleared so no further tick changes anything, progress never exceeds 100,
and the next run's start resets progress to 0. -/
theorem claim_C8_progress_run (m : String) (p0 : ℕ) (b0 : Bool) (c0 : List String) (n : ℕ) :
    tickN m n (handleTrainModel ⟨p0, b0, 0, c0⟩) =
      (if n ≤ 50 then (⟨2 * n, true, 1, c0⟩ : OrchState) else ⟨100, false, 0, m :: c0⟩) ∧
    (tickN m n (handleTrainModel ⟨p0, b0, 0, c0⟩)).progress ≤ 100 ∧
    (handleTrainModel (tickN m n (handleTrainModel ⟨p0, b0, 0, c0⟩))).progress = 0 := by
  have hstart : handleTrainModel ⟨p0, b0, 0, c0⟩ = (⟨0, true, 1, c0⟩ : OrchState) := rfl
  have key : ∀ k, tickN m k (⟨0, true, 1, c0⟩ : OrchState) =
      if k ≤ 50 then (⟨2 * k, true, 1, c0⟩ : OrchState) else ⟨100, false, 0, m :: c0⟩ := by
    intro k
    induction k with
    | zero => simp [tickN]
    | succ k ih =>
      rw [tickN, ih]
      rcases Nat.lt_trichotomy k 50 with hk | hk | hk
      · rw [if_pos (Nat.le_of_lt hk), if_pos (show k + 1 ≤ 50 from hk)]
        show tick m ⟨2 * k, true, 1, c0⟩ = (⟨2 * (k + 1), true, 1, c0⟩ : OrchState)
        unfold tick
        rw [if_neg (by simp), if_neg (by simp; omega)]
        simp [OrchState.mk.injEq]
        omega
      · subst hk
        rw [if_pos (le_refl 50), if_neg (by omega)]
        rfl
      · rw [if_neg (by omega), if_neg (by omega)]
        rfl
  rw [hstart, key n]
  refine ⟨rfl, ?_, ?_⟩
  · split
    · show 2 * n ≤ 100
      next hn => omega
    · show (100 : ℕ) ≤ 100
      exact le_refl 100
  · rfl

/-- Bounds for a metric of the form `lo + x * w` with a draw `x ∈ [0, 1)`. -/
lemma metric_range {x lo w hi : ℚ} (h0 : 0 ≤ x) (h1 : x < 1) (hw : 0 < w)
    (hhi : lo + w = hi) : lo ≤ lo + x * w ∧ lo + x * w < hi := by
  constructor <;> nlinarith

/-- C2: for every model kind, every dataset and every draw stream with all
draws in `[0, 1)`, the `accuracy` and `rmse` of the returned `ModelResult`
lie in the kind's fixed range: SVM accuracy `[0.87, 0.95)`, rmse
`[0.12, 0.20)`; ANN `[0.91, 0.97)` / `[0.09, 0.15)`; ELM `[0.94, 0.98)` /
`[0.06, 0.10)`; GA `[0.89, 0.96)` / `[0.10, 0.17)`. -/
theorem claim_C2_metric_ranges (M : MathPrims) (r : ℕ → ℚ) (u : Bool)
    (rd : List EDMTrainingData) (e : ℕ) (hr : ∀ n, 0 ≤ r n ∧ r n < 1) :
    (87/100 ≤ (trainSVM r u rd e).accuracy ∧ (trainSVM r u rd e).accuracy < 95/100) ∧
    (12/100 ≤ (trainSVM r u rd e).rmse ∧ (trainSVM r u rd e).rmse < 20/100) ∧
    (91/100 ≤ (trainANN M r u rd e).accuracy ∧ (trainANN M r u rd e).accuracy < 97/100) ∧
    (9/100 ≤ (trainANN M r u rd e).rmse ∧ (trainANN M r u rd e).rmse < 15/100) ∧
    (94/100 ≤ (trainELM M r u rd e).accuracy ∧ (trainELM M r u rd e).accuracy < 98/100) ∧
    (6/100 ≤ (trainELM M r u rd e).rmse ∧ (trainELM M r u rd e).rmse < 10/100) ∧
    (89/100 ≤ (trainGA r u rd e).accuracy ∧ (trainGA r u rd e).accuracy < 96/100) ∧
    (10/100 ≤ (trainGA r u rd e).rmse ∧ (trainGA r u rd e).rmse < 17/100) := by
  refine ⟨?_, ?_, ?_, ?_, ?_, ?_, ?_, ?_⟩
  · exact metric_range (hr _).1 (hr _).2 (by norm_num) (by norm_num)
  · exact metric_range (hr _).1 (hr _).2 (by norm_num) (by norm_num)
  · exact metric_range (hr _).1 (hr _).2 (by norm_num) (by norm_num)
  · exact metric_range (hr _).1 (hr _).2 (by norm_num) (by norm_num)
  · exact metric_range (hr _).1 (hr _).2 (by norm_num) (by norm_num)
  · exact metric_range (hr _).1 (hr _).2 (by norm_num) (by norm_num)
  · exact metric_range (hr _).1 (hr _).2 (by norm_num) (by norm_num)
  · exact metric_range (hr _).1 (hr _).2 (by norm_num) (by norm_num)

/-- Witness for C2: the constant stream `1/2` satisfies the draw bounds and
the SVM accuracy range follows by the theorem. -/
theorem claim_C2_metric_ranges_witness :
    (∀ n, 0 ≤ rHalf n ∧ rHalf n < 1) ∧
    (87/100 ≤ (trainSVM rHalf true [] 0).accuracy ∧
      (trainSVM rHalf true [] 0).accuracy < 95/100) := by
  have h : ∀ n, 0 ≤ rHalf n ∧ rHalf n < 1 := fun n => by norm_num [rHalf]
  exact ⟨h, (claim_C2_metric_ranges idPrims rHalf true [] 0 h).1⟩

/-- C3 counterexample: with a concrete dataset and all other inputs left at
their defaults, raising the thickness input from 1 to 2 strictly increases
the SVM-predicted materialRemovalRate — the `- weights.pulseOn * thickness`
term has `weights.pulseOn = -0.008`, so the net thickness contribution is
`+0.008 · thickness`, not a penalty. -/
theorem claim_C3_counterexample :
    ((trainSVM rHalf true [unitRecord] 0).predict
        { emptyParams with thickness := some 1 }).materialRemovalRate <
      ((trainSVM rHalf true [unitRecord] 0).predict
        { emptyParams with thickness := some 2 }).materialRemovalRate := by
  with_unfolding_all decide

/-- C3 amended: the SVM predictor's thickness term is weakly increasing:
for any dataset, draw stream and fixed values of the other inputs,
increasing the thickness input never decreases (and hence in particular
never "is subtracted from") the predicted materialRemovalRate. -/
theorem claim_C3_thickness_monotone (r : ℕ → ℚ) (u : Bool) (rd : List EDMTrainingData)
    (e : ℕ) (p : PredictParams) (t1 t2 : ℚ) (h : t1 ≤ t2) :
    ((trainSVM r u rd e).predict { p with thickness := some t1 }).materialRemovalRate ≤
      ((trainSVM r u rd e).predict { p with thickness := some t2 }).materialRemovalRate := by
  show max 0 (
      (svmWeights (trainData r u rd)).voltage * orDefault p.laserPower 0 +
      (svmWeights (trainData r u rd)).current * orDefault p.speed 0 / 100 -
      (svmWeights (trainData r u rd)).pulseOn * orDefault (some t1) 0 +
      (svmWeights (trainData r u rd)).pulseOff * orDefault p.linearEnergy 0 / 10) ≤
    max 0 (
      (svmWeights (trainData r u rd)).voltage * orDefault p.laserPower 0 +
      (svmWeights (trainData r u rd)).current * orDefault p.speed 0 / 100 -
      (svmWeights (trainData r u rd)).pulseOn * orDefault (some t2) 0 +
      (svmWeights (trainData r u rd)).pulseOff * orDefault p.linearEnergy 0 / 10)
  have hpon : (svmWeights (trainData r u rd)).pulseOn = -(8/1000) := rfl
  rw [orDefault_some_zero, orDefault_some_zero, hpon]
  apply max_le_max le_rfl
  linarith

/-- Witness for the amended C3 at thickness 1 ≤ 2 on a concrete dataset. -/
theorem claim_C3_thickness_monotone_witness :
    (1 : ℚ) ≤ 2 ∧
    ((trainSVM rHalf true [unitRecord] 0).predict
        { emptyParams with thickness := some 1 }).materialRemovalRate ≤
      ((trainSVM rHalf true [unitRecord] 0).predict
        { emptyParams with thickness := some 2 }).materialRemovalRate :=
  ⟨by norm_num,
   claim_C3_thickness_monotone rHalf true [unitRecord] 0 emptyParams 1 2 (by norm_num)⟩

/-- C7: the synthetic data generator returns exactly 100 records; when all
draws lie in `[0, 1)` every record's generator-drawn fields lie in the
declared ranges (laserPower-analog `[2.5, 6.0]`, speed-analog
`[1500, 4600]`, thickness-analog `[2, 10]`, linearEnergy-analog
`[33, 240]`, dielectricFlow-analog `[0.7, 1.5]`); consequently every model
kind trained with `useReal = false` reports `samples = 100`. -/
theorem claim_C7_synthetic_hundred (M : MathPrims) (r : ℕ → ℚ)
    (rd : List EDMTrainingData) (e : ℕ) (hr : ∀ n, 0 ≤ r n ∧ r n < 1) :
    (generateSyntheticData r).length = 100 ∧
    (∀ d ∈ generateSyntheticData r,
      25/10 ≤ d.voltage ∧ d.voltage ≤ 6 ∧
      1500 ≤ d.current ∧ d.current ≤ 4600 ∧
      2 ≤ d.pulseOnTime ∧ d.pulseOnTime ≤ 10 ∧
      33 ≤ d.pulseOffTime ∧ d.pulseOffTime ≤ 240 ∧
      7/10 ≤ d.dielectricFlow ∧ d.dielectricFlow ≤ 15/10) ∧
    (trainSVM r false rd e).samples = 100 ∧
    (trainANN M r false rd e).samples = 100 ∧
    (trainELM M r false rd e).samples = 100 ∧
    (trainGA r false rd e).samples = 100 := by
  have hlen : (generateSyntheticData r).length = 100 := by
    simp [generateSyntheticData]
  refine ⟨hlen, ?_, hlen, hlen, hlen, hlen⟩
  intro d hd
  rw [generateSyntheticData, List.mem_map] at hd
  obtain ⟨i, -, rfl⟩ := hd
  obtain ⟨h0v, h1v⟩ := hr (7*i)
  obtain ⟨h0c, h1c⟩ := hr (7*i + 1)
  obtain ⟨h0p, h1p⟩ := hr (7*i + 2)
  obtain ⟨h0q, h1q⟩ := hr (7*i + 3)
  obtain ⟨h0f, h1f⟩ := hr (7*i + 5)
  simp only [syntheticRecord]
  refine ⟨by nlinarith, by nlinarith, by nlinarith, by nlinarith, by nlinarith,
    by nlinarith, by nlinarith, by nlinarith, by nlinarith, by nlinarith⟩

/-- Witness for C7 at the constant draw stream `1/2`. -/
theorem claim_C7_synthetic_hundred_witness :
    (∀ n, 0 ≤ rHalf n ∧ rHalf n < 1) ∧
    (generateSyntheticData rHalf).length = 100 ∧
    (trainSVM rHalf false [] 0).samples = 100 := by
  have h : ∀ n, 0 ≤ rHalf n ∧ rHalf n < 1 := fun n => by norm_num [rHalf]
  exact ⟨h, (claim_C7_synthetic_hundred idPrims rHalf [] 0 h).1,
    (claim_C7_synthetic_hundred idPrims rHalf [] 0 h).2.2.1⟩

/-- C6 counterexample: a valid draw stream (all draws in `[0, 1)`) under
which the individual whose weights the returned `predict` uses —
`population[0]` after the ten generations — has strictly smaller fitness
than another member of the final population: the final generation's
offspring are appended after the sorted survivors without re-sorting, and
an offspring's fitness can exceed its parent's by a factor up to 1.05. -/
theorem claim_C6_counterexample :
    (∀ n, 0 ≤ gaCounterStream n ∧ gaCounterStream n < 1) ∧
    (trainGA gaCounterStream true [] 0).predict =
      gaPredict (bestIndividual gaCounterStream 0) ∧
    ∃ x ∈ gaEvolve gaCounterStream 0 10,
      (bestIndividual gaCounterStream 0).fitness < x.fitness := by
  refine ⟨fun n => ?_, rfl, ?_⟩
  · unfold gaCounterStream
    split <;> norm_num
  · exact ⟨(gaEvolve gaCounterStream 0 10).getD 10 default,
      by with_unfolding_all decide, by with_unfolding_all decide⟩

/-- C6 amended: after the ten generations, `population[0]` — the individual
whose weights the returned `predict` closure uses — is the top of the last
sort: its fitness is greater than or equal to the fitness of each of the
first ten members of the final population (the survivors of the final
generation), for every draw stream.  It need not dominate the ten offspring
appended behind them, since a final-generation offspring's fitness is its
parent's times a factor that can reach 1.05 (see the counterexample). -/
theorem claim_C6_best_of_survivors (r : ℕ → ℚ) (u : Bool)
    (rd : List EDMTrainingData) (e : ℕ) :
    (∀ x ∈ (gaEvolve r (drawBase u) 10).take 10,
      x.fitness ≤ (bestIndividual r (drawBase u)).fitness) ∧
    (trainGA r u rd e).predict = gaPredict (bestIndividual r (drawBase u)) := by
  refine ⟨?_, rfl⟩
  have hstep : gaEvolve r (drawBase u) 10 =
      gaStep r (drawBase u + 180 + 90*9) (gaEvolve r (drawBase u) 9) := rfl
  have hbest : bestIndividual r (drawBase u) = (gaEvolve r (drawBase u) 10).headI := rfl
  rw [hbest, hstep]
  exact gaStep_take_head r _ _ (length_gaEvolve r (drawBase u) 9)

/-- Witness for the amended C6: at the constant draw stream `1/2` the
all-zero-weight individual with fitness `1/2` sits among the first ten
members of the final population, and its fitness is bounded by the best
individual's. -/
theorem claim_C6_best_of_survivors_witness :
    (⟨[0, 0, 0, 0, 0, 0, 0, 0], 1/2⟩ : Individual) ∈
      (gaEvolve rHalf (drawBase true) 10).take 10 ∧
    (⟨[0, 0, 0, 0, 0, 0, 0, 0], 1/2⟩ : Individual).fitness ≤
      (bestIndividual rHalf (drawBase true)).fitness :=
  ⟨by with_unfolding_all decide,
   (claim_C6_best_of_survivors rHalf true [] 0).1 _ (by with_unfolding_all decide)⟩

/-- If a closure body reads its captured environment and never writes it,
running any call sequence returns the pointwise-pure outputs and leaves the
environment unchanged. -/
lemma closureRun_readonly {σ : Type} (body : σ → PredictParams → PredictionOutput × σ)
    (f : σ → PredictParams → PredictionOutput) (hb : ∀ s p, body s p = (f s p, s)) :
    ∀ (l : List PredictParams) (s : σ), closureRun body s l = (l.map (f s), s)
  | [], _ => rfl
  | p :: ps, s => by
    simp only [closureRun, hb, closureRun_readonly body f hb ps s, List.map_cons]

/-- C9: every `predict` closure returned by the four train functions is the
pure function of its input and the coefficients captured at creation time
(last four conjuncts), and running any sequence of calls through the
closure returns exactly the pointwise outputs while leaving the captured
environment unchanged — two calls on equal params give equal outputs and no
call affects a later one (first four conjuncts). -/
theorem claim_C9_predict_pure (M : MathPrims) (r : ℕ → ℚ) (u : Bool)
    (rd : List EDMTrainingData) (e : ℕ) (l : List PredictParams) :
    (∀ w : SVMWeights, closureRun svmCall w l = (l.map (svmPredict w), w)) ∧
    (∀ env : List ℚ × List ℚ,
      closureRun (annCall M) env l = (l.map (annPredict M env.1 env.2), env)) ∧
    (∀ env : List ℚ × List ℚ,
      closureRun (elmCall M) env l = (l.map (elmPredict M env.1 env.2), env)) ∧
    (∀ best : Individual, closureRun gaCall best l = (l.map (gaPredict best), best)) ∧
    (trainSVM r u rd e).predict = svmPredict (svmWeights (trainData r u rd)) ∧
    (trainANN M r u rd e).predict = annPredict M
      (annHiddenWeights r (drawBase u)
        (calculateDataStatistics M (trainData r u rd)).correlationFactor)
      (annOutputWeights r (drawBase u)) ∧
    (trainELM M r u rd e).predict = elmPredict M
      (elmInputWeights r (drawBase u)
        (calculateDataStatistics M (trainData r u rd)).varianceFactor)
      (elmBiases r (drawBase u)) ∧
    (trainGA r u rd e).predict = gaPredict (bestIndividual r (drawBase u)) :=
  ⟨fun w => closureRun_readonly svmCall (fun s => svmPredict s) (fun _ _ => rfl) l w,
   fun env => closureRun_readonly (annCall M) (fun s => annPredict M s.1 s.2)
     (fun _ _ => rfl) l env,
   fun env => closureRun_readonly (elmCall M) (fun s => elmPredict M s.1 s.2)
     (fun _ _ => rfl) l env,
   fun best => closureRun_readonly gaCall (fun s => gaPredict s) (fun _ _ => rfl) l best,
   rfl, rfl, rfl, rfl⟩

end WEDM
